import Mathlib

/-!
Verification of the QR pattern hunter ("kyoowar") core: the pattern
matcher service (`loadPattern`, `findPatternInQr`), the worker-pool
scheduler in `server.js`, and the worker message handler in
`qr_worker.js`, shallowly embedded in Lean.
-/

set_option maxHeartbeats 1000000

namespace Kyoowar

/-- Pixel colors are Jimp 32-bit RGBA integers. -/
abbrev Color := Nat

/-- `Jimp.rgbaToInt(r, g, b, a)`: packs four bytes into one integer. -/
def rgbaToInt (r g b a : Nat) : Color :=
  ((r * 256 + g) * 256 + b) * 256 + a

/-- `PURE_BLACK_INT = Jimp.rgbaToInt(0, 0, 0, 255)`. -/
def PURE_BLACK_INT : Color := rgbaToInt 0 0 0 255

/-- `PURE_WHITE_INT = Jimp.rgbaToInt(255, 255, 255, 255)`. -/
def PURE_WHITE_INT : Color := rgbaToInt 255 255 255 255

/-- A Jimp image with bitmap data: dimensions plus a pixel-color lookup
(`getPixelColor`), which for in-range coordinates reads the RGBA bytes of
`bitmap.data` packed by `rgbaToInt`. -/
structure Image where
  width : Nat
  height : Nat
  pixel : Nat → Nat → Color

/-- The value returned by `findPatternInQr` on success:
`{ x: xQr, y: yQr, pattern: this.patternFileName }`. -/
structure MatchLoc where
  x : Nat
  y : Nat
  pattern : String
deriving DecidableEq

/-- The mutable fields of a `PatternMatcherService` instance. -/
structure MatcherState where
  templatesDir : String
  patternImage : Option Image
  patternMatrix : Option (List (List Color))
  patternWidth : Nat
  patternHeight : Nat
  patternFileName : String

/-- All coordinates `(x, y)` with `x < w`, `y < h` in the row-major order
used both by Jimp's `scan` callback and the nested matcher loops:
`y` outer, `x` inner, both ascending. -/
def rowMajorOffsets (w h : Nat) : List (Nat × Nat) :=
  (List.range h).flatMap (fun y => (List.range w).map (fun x => (x, y)))

/-- A color is canonical when it is opaque pure black or opaque pure white,
the only two colors `_validatePatternColors` accepts. -/
def isCanonical (c : Color) : Bool :=
  c == PURE_BLACK_INT || c == PURE_WHITE_INT

/-- The pixel recorded in `firstInvalidPixel` by the `_validatePatternColors`
scan: the first pixel, in row-major scan order, whose color is not one of the
two canonical colors. -/
def firstInvalidPixel (img : Image) : Option (Nat × Nat) :=
  (rowMajorOffsets img.width img.height).find?
    (fun p => !(isCanonical (img.pixel p.1 p.2)))

/-- `_validatePatternColors`: succeeds exactly when the scan records no
invalid pixel. -/
def validatePatternColors (img : Image) : Bool :=
  (firstInvalidPixel img).isNone

/-- `loadPattern(patternFileName)`.  File reading is effectful, so the embed
takes the outcome of `Jimp.read` as an argument: `none` models a read
failure (the `catch` branch), `some img` a successfully decoded image.
Returns the updated service state and the boolean result. -/
def loadPattern (svc : MatcherState) (patternFileName : String)
    (readResult : Option Image) : MatcherState × Bool :=
  let svc := { svc with patternFileName := patternFileName }
  match readResult with
  | none =>
      ({ svc with patternImage := none, patternMatrix := none,
                  patternWidth := 0, patternHeight := 0 }, false)
  | some img =>
      if validatePatternColors img then
        ({ svc with
            patternImage := some img,
            patternWidth := img.width,
            patternHeight := img.height,
            patternMatrix := some ((List.range img.height).map
              (fun y => (List.range img.width).map (fun x => img.pixel x y))) },
         true)
      else
        ({ svc with patternImage := none, patternMatrix := none,
                    patternWidth := 0, patternHeight := 0 }, false)

/-- `this.patternMatrix[yP][xP]`: `none` when the index is out of the
matrix (JavaScript `undefined`, which compares unequal to every color). -/
def patternCell (pm : List (List Color)) (xP yP : Nat) : Option Color :=
  (pm.get? yP).bind (fun row => row.get? xP)

/-- The inner double loop of `findPatternInQr`: the window of the candidate
at top-left `(xQr, yQr)` equals the pattern matrix cell-for-cell under exact
integer-color equality. -/
def windowMatches (pm : List (List Color)) (qr : Image) (pw ph xQr yQr : Nat) :
    Bool :=
  (List.range ph).all (fun yP => (List.range pw).all (fun xP =>
    patternCell pm xP yP == some (qr.pixel (xQr + xP) (yQr + yP))))

/-- `findPatternInQr(qrJimpImage)`.  A missing candidate image or missing
bitmap data is modelled by `none`.  After the pre-flight and dimension
checks, the nested `yQr`/`xQr` loops return the first row-major offset whose
window matches; the loop order and first-match semantics are captured by
`List.find?` over `rowMajorOffsets`. -/
def findPatternInQr (svc : MatcherState) (qr? : Option Image) :
    Option MatchLoc :=
  match svc.patternMatrix, svc.patternImage, qr? with
  | some pm, some _, some qr =>
      if svc.patternWidth > qr.width ∨ svc.patternHeight > qr.height then
        none
      else
        ((rowMajorOffsets (qr.width - svc.patternWidth + 1)
            (qr.height - svc.patternHeight + 1)).find?
          (fun p => windowMatches pm qr svc.patternWidth svc.patternHeight
            p.1 p.2)).map
          (fun p => { x := p.1, y := p.2, pattern := svc.patternFileName })
  | _, _, _ => none

/-- Row-major (scan) order on coordinates: `y` outer, `x` inner. -/
def rmLt (a b : Nat × Nat) : Prop :=
  a.2 < b.2 ∨ (a.2 = b.2 ∧ a.1 < b.1)

theorem rmLt_irrefl (a : Nat × Nat) : ¬ rmLt a a := by
  simp [rmLt]

theorem rmLt_asymm {a b : Nat × Nat} (h1 : rmLt a b) (h2 : rmLt b a) : False := by
  rcases h1 with h1 | ⟨h1, h1'⟩ <;> rcases h2 with h2 | ⟨h2, h2'⟩ <;> omega

theorem mem_rowMajorOffsets {w h : Nat} {p : Nat × Nat} :
    p ∈ rowMajorOffsets w h ↔ p.1 < w ∧ p.2 < h := by
  rcases p with ⟨x, y⟩
  simp only [rowMajorOffsets, List.mem_flatMap, List.mem_map, List.mem_range]
  constructor
  · rintro ⟨y', hy', x', hx', hxy⟩
    cases hxy
    exact ⟨hx', hy'⟩
  · rintro ⟨hx, hy⟩
    exact ⟨y, hy, x, hx, rfl⟩

theorem pairwise_rowMajorOffsets (w h : Nat) :
    List.Pairwise rmLt (rowMajorOffsets w h) := by
  induction h with
  | zero => simp [rowMajorOffsets]
  | succ n ih =>
      have hsplit : rowMajorOffsets w (n + 1) =
          rowMajorOffsets w n ++ (List.range w).map (fun x => (x, n)) := by
        simp [rowMajorOffsets, List.range_succ]
      rw [hsplit, List.pairwise_append]
      refine ⟨ih, ?_, ?_⟩
      · rw [List.pairwise_map]
        exact (List.pairwise_lt_range w).imp (fun hxy => Or.inr ⟨rfl, hxy⟩)
      · intro a ha b hb
        have ha2 : a.2 < n := (mem_rowMajorOffsets.mp ha).2
        rcases List.mem_map.mp hb with ⟨x, _, hx⟩
        cases hx
        exact Or.inl ha2

theorem find?_min_of_pairwise {α : Type} {R : α → α → Prop} {p : α → Bool}
    {a : α} :
    ∀ {l : List α}, List.Pairwise R l → l.find? p = some a →
      ∀ b ∈ l, p b = true → b = a ∨ R a b := by
  intro l
  induction l with
  | nil => intro _ h; simp at h
  | cons x xs ih =>
      intro hpw hfind b hb hpb
      rw [List.pairwise_cons] at hpw
      by_cases hx : p x = true
      · rw [List.find?_cons_of_pos _ hx] at hfind
        cases hfind
        rcases List.mem_cons.mp hb with hb | hb
        · exact Or.inl hb
        · exact Or.inr (hpw.1 b hb)
      · rw [List.find?_cons_of_neg _ hx] at hfind
        rcases List.mem_cons.mp hb with hb | hb
        · cases hb; exact absurd hpb hx
        · exact ih hpw.2 hfind b hb hpb

/-- The guard-free right-hand side of `findPatternInQr` once the pre-flight
and dimension checks pass. -/
theorem findPatternInQr_eq_find? (svc : MatcherState) (qr : Image)
    {pm : List (List Color)} {im : Image}
    (hm : svc.patternMatrix = some pm) (hi : svc.patternImage = some im)
    (hw : svc.patternWidth ≤ qr.width) (hh : svc.patternHeight ≤ qr.height) :
    findPatternInQr svc (some qr) =
      ((rowMajorOffsets (qr.width - svc.patternWidth + 1)
          (qr.height - svc.patternHeight + 1)).find?
        (fun p => windowMatches pm qr svc.patternWidth svc.patternHeight
          p.1 p.2)).map
        (fun p => { x := p.1, y := p.2, pattern := svc.patternFileName }) := by
  have hguard : ¬ (svc.patternWidth > qr.width ∨ svc.patternHeight > qr.height) := by
    omega
  simp [findPatternInQr, hm, hi, hguard]

/-- **C1**: for every loaded pattern and every candidate at least as large as
the pattern in both dimensions, `findPatternInQr` returns the first offset,
in row-major order (y outer, x inner, both ascending) over all
`0 ≤ x ≤ candidateWidth-patternWidth`, `0 ≤ y ≤ candidateHeight-patternHeight`,
whose window equals the pattern matrix cell-for-cell under exact
integer-color equality, and returns `null` exactly when no offset matches. -/
theorem c1_findPatternInQr_first_row_major_match
    (svc : MatcherState) (qr : Image) (pm : List (List Color)) (im : Image)
    (hm : svc.patternMatrix = some pm) (hi : svc.patternImage = some im)
    (hw : svc.patternWidth ≤ qr.width) (hh : svc.patternHeight ≤ qr.height) :
    (∀ loc : MatchLoc, findPatternInQr svc (some qr) = some loc →
        loc.pattern = svc.patternFileName ∧
        loc.x ≤ qr.width - svc.patternWidth ∧
        loc.y ≤ qr.height - svc.patternHeight ∧
        windowMatches pm qr svc.patternWidth svc.patternHeight loc.x loc.y
          = true ∧
        (∀ x y : Nat, x ≤ qr.width - svc.patternWidth →
            y ≤ qr.height - svc.patternHeight →
            rmLt (x, y) (loc.x, loc.y) →
            windowMatches pm qr svc.patternWidth svc.patternHeight x y
              = false)) ∧
    (findPatternInQr svc (some qr) = none ↔
        ∀ x y : Nat, x ≤ qr.width - svc.patternWidth →
          y ≤ qr.height - svc.patternHeight →
          windowMatches pm qr svc.patternWidth svc.patternHeight x y
            = false) := by
  have hdef := findPatternInQr_eq_find? svc qr hm hi hw hh
  constructor
  · intro loc hloc
    rw [hdef] at hloc
    rcases Option.map_eq_some'.mp hloc with ⟨p, hfind, hp⟩
    obtain ⟨px, py⟩ := p
    have hpred := List.find?_some hfind
    have hmem := List.mem_of_find?_eq_some hfind
    rw [mem_rowMajorOffsets] at hmem
    have hmin := find?_min_of_pairwise (pairwise_rowMajorOffsets _ _) hfind
    cases hp
    have h1 : px < qr.width - svc.patternWidth + 1 := hmem.1
    have h2 : py < qr.height - svc.patternHeight + 1 := hmem.2
    refine ⟨rfl, ?_, ?_, by simpa using hpred, ?_⟩
    · show px ≤ qr.width - svc.patternWidth
      omega
    · show py ≤ qr.height - svc.patternHeight
      omega
    intro x y hx hy hlt
    have hlt' : rmLt (x, y) (px, py) := hlt
    by_contra hcon
    rw [Bool.not_eq_false] at hcon
    have hmemb : (x, y) ∈ rowMajorOffsets (qr.width - svc.patternWidth + 1)
        (qr.height - svc.patternHeight + 1) :=
      mem_rowMajorOffsets.mpr ⟨by omega, by omega⟩
    rcases hmin (x, y) hmemb (by simpa using hcon) with heq | hR
    · rw [heq] at hlt'
      exact rmLt_irrefl _ hlt'
    · exact rmLt_asymm hlt' hR
  · rw [hdef, Option.map_eq_none', List.find?_eq_none]
    constructor
    · intro hall x y hx hy
      have hmemb : (x, y) ∈ rowMajorOffsets (qr.width - svc.patternWidth + 1)
          (qr.height - svc.patternHeight + 1) :=
        mem_rowMajorOffsets.mpr ⟨by omega, by omega⟩
      have := hall (x, y) hmemb
      simpa using this
    · intro hall p hp
      obtain ⟨px, py⟩ := p
      rw [mem_rowMajorOffsets] at hp
      have := hall px py (by omega) (by omega)
      simpa using this

/-- **C2**: for a source image that decodes successfully, `loadPattern`
fails (returns `false`, leaving no pattern constructed) iff the image has at
least one pixel that is not opaque pure black or opaque pure white, and the
pixel recorded by the validation scan is the first such pixel in row-major
scan order. -/
theorem c2_loadPattern_fails_iff_invalid_pixel
    (svc : MatcherState) (patternFileName : String) (img : Image) :
    ((loadPattern svc patternFileName (some img)).2 = false ↔
      ∃ x y : Nat, x < img.width ∧ y < img.height ∧
        isCanonical (img.pixel x y) = false) ∧
    (∀ x y : Nat, firstInvalidPixel img = some (x, y) →
      x < img.width ∧ y < img.height ∧
      isCanonical (img.pixel x y) = false ∧
      ∀ x' y' : Nat, x' < img.width → y' < img.height →
        rmLt (x', y') (x, y) → isCanonical (img.pixel x' y') = true) := by
  have hres : (loadPattern svc patternFileName (some img)).2
      = validatePatternColors img := by
    by_cases h : validatePatternColors img = true <;>
      simp [loadPattern, h]
  constructor
  · rw [hres]
    unfold validatePatternColors
    cases hcase : firstInvalidPixel img with
    | none =>
        rw [firstInvalidPixel, List.find?_eq_none] at hcase
        apply iff_of_false
        · simp
        · rintro ⟨x, y, hx, hy, hbad⟩
          have := hcase (x, y) (mem_rowMajorOffsets.mpr ⟨hx, hy⟩)
          simp [hbad] at this
    | some p =>
        obtain ⟨px, py⟩ := p
        apply iff_of_true
        · simp
        · have hpred := List.find?_some hcase
          have hmem := List.mem_of_find?_eq_some hcase
          rw [mem_rowMajorOffsets] at hmem
          exact ⟨px, py, hmem.1, hmem.2, by simpa using hpred⟩
  · intro x y hfind
    have hpred := List.find?_some hfind
    have hmem := List.mem_of_find?_eq_some hfind
    rw [mem_rowMajorOffsets] at hmem
    have hmin := find?_min_of_pairwise (pairwise_rowMajorOffsets _ _) hfind
    refine ⟨hmem.1, hmem.2, by simpa using hpred, ?_⟩
    intro x' y' hx' hy' hlt
    by_contra hcon
    rw [Bool.not_eq_true] at hcon
    have hmemb : (x', y') ∈ rowMajorOffsets img.width img.height :=
      mem_rowMajorOffsets.mpr ⟨hx', hy'⟩
    rcases hmin (x', y') hmemb (by simp [hcon]) with heq | hR
    · rw [heq] at hlt
      exact rmLt_irrefl _ hlt
    · exact rmLt_asymm hlt hR

/-- **C7**: if the pattern is wider or taller than the candidate,
`findPatternInQr` returns `null` from the dimension guard, before the scan
loops. -/
theorem c7_findPatternInQr_dimension_guard (svc : MatcherState) (qr : Image)
    (h : qr.width < svc.patternWidth ∨ qr.height < svc.patternHeight) :
    findPatternInQr svc (some qr) = none := by
  have hguard : svc.patternWidth > qr.width ∨ svc.patternHeight > qr.height := by
    omega
  cases hm : svc.patternMatrix with
  | none => simp [findPatternInQr, hm]
  | some pm =>
      cases hi : svc.patternImage with
      | none => simp [findPatternInQr, hm, hi]
      | some im => simp [findPatternInQr, hm, hi, hguard]

/-- A failed `loadPattern` always leaves `patternMatrix` null. -/
theorem loadPattern_failed_matrix_none (svc : MatcherState)
    (patternFileName : String) (readResult : Option Image)
    (h : (loadPattern svc patternFileName readResult).2 = false) :
    (loadPattern svc patternFileName readResult).1.patternMatrix = none := by
  cases readResult with
  | none => rfl
  | some img =>
      by_cases hv : validatePatternColors img = true
      · simp [loadPattern, hv] at h
      · simp [loadPattern, hv]

/-- **C10**: `findPatternInQr` is total at its public interface: whenever no
pattern is loaded (`patternMatrix` or `patternImage` null, which includes the
state left by any failed `loadPattern`) or the candidate image lacks bitmap
data, it returns `null` rather than raising an error. -/
theorem c10_findPatternInQr_total_null (svc : MatcherState) (qr? : Option Image)
    (h : svc.patternMatrix = none ∨ svc.patternImage = none ∨ qr? = none ∨
      (∃ s0 nm rd, svc = (loadPattern s0 nm rd).1 ∧
        (loadPattern s0 nm rd).2 = false)) :
    findPatternInQr svc qr? = none := by
  have hcases : svc.patternMatrix = none ∨ svc.patternImage = none ∨
      qr? = none := by
    rcases h with h | h | h | ⟨s0, nm, rd, hsvc, hfail⟩
    · exact Or.inl h
    · exact Or.inr (Or.inl h)
    · exact Or.inr (Or.inr h)
    · exact Or.inl (hsvc ▸ loadPattern_failed_matrix_none s0 nm rd hfail)
  rcases hcases with h | h | h
  · simp [findPatternInQr, h]
  · cases hm : svc.patternMatrix with
    | none => simp [findPatternInQr, hm]
    | some pm => simp [findPatternInQr, hm, h]
  · cases hm : svc.patternMatrix with
    | none => simp [findPatternInQr, hm]
    | some pm =>
        cases hi : svc.patternImage with
        | none => simp [findPatternInQr, hm, hi]
        | some im => simp [findPatternInQr, hm, hi, h]

/-! Concrete instances used by the witnesses. -/

/-- A freshly constructed `PatternMatcherService`. -/
def svc0 : MatcherState :=
  { templatesDir := "templates", patternImage := none, patternMatrix := none,
    patternWidth := 0, patternHeight := 0, patternFileName := "" }

/-- A 1×1 all-black pattern source image. -/
def patternImg1 : Image :=
  { width := 1, height := 1, pixel := fun _ _ => PURE_BLACK_INT }

/-- The service state after loading the 1×1 black pattern. -/
def svc1 : MatcherState := (loadPattern svc0 "p.png" (some patternImg1)).1

/-- A 2×2 candidate: black at (1, 0), white elsewhere. -/
def qrImg1 : Image :=
  { width := 2, height := 2,
    pixel := fun x y => if x = 1 ∧ y = 0 then PURE_BLACK_INT else PURE_WHITE_INT }

/-- An empty candidate image, smaller than any nonempty pattern. -/
def qrImg0 : Image :=
  { width := 0, height := 0, pixel := fun _ _ => PURE_WHITE_INT }

/-- A 2×2 pattern source with a gray pixel at (1, 0), black elsewhere. -/
def badImg : Image :=
  { width := 2, height := 2,
    pixel := fun x y =>
      if x = 1 ∧ y = 0 then rgbaToInt 128 128 128 255 else PURE_BLACK_INT }

/-- Witness for C1 at the loaded 1×1 pattern and 2×2 candidate. -/
theorem c1_witness :
    svc1.patternMatrix = some [[PURE_BLACK_INT]] ∧
    svc1.patternImage = some patternImg1 ∧
    svc1.patternWidth ≤ qrImg1.width ∧ svc1.patternHeight ≤ qrImg1.height ∧
    findPatternInQr svc1 (some qrImg1) = some ⟨1, 0, "p.png"⟩ ∧
    windowMatches [[PURE_BLACK_INT]] qrImg1 svc1.patternWidth
      svc1.patternHeight 0 0 = false :=
  ⟨by decide, rfl, by decide, by decide, by decide,
    ((c1_findPatternInQr_first_row_major_match svc1 qrImg1 [[PURE_BLACK_INT]]
        patternImg1 (by decide) rfl (by decide) (by decide)).1
      ⟨1, 0, "p.png"⟩ (by decide)).2.2.2.2 0 0 (by decide) (by decide)
      (by right; exact ⟨rfl, Nat.zero_lt_one⟩)⟩

/-- Witness for C2 at the pattern source with a gray pixel at (1, 0). -/
theorem c2_witness :
    (loadPattern svc0 "bad.png" (some badImg)).2 = false ∧
    firstInvalidPixel badImg = some (1, 0) ∧
    isCanonical (badImg.pixel 1 0) = false ∧
    isCanonical (badImg.pixel 0 0) = true :=
  ⟨(c2_loadPattern_fails_iff_invalid_pixel svc0 "bad.png" badImg).1.mpr
      ⟨1, 0, by decide, by decide, by decide⟩,
    by decide,
    ((c2_loadPattern_fails_iff_invalid_pixel svc0 "bad.png" badImg).2 1 0
        (by decide)).2.2.1,
    ((c2_loadPattern_fails_iff_invalid_pixel svc0 "bad.png" badImg).2 1 0
        (by decide)).2.2.2 0 0 (by decide) (by decide)
      (by right; exact ⟨rfl, Nat.zero_lt_one⟩)⟩

/-- Witness for C7: 1×1 pattern against an empty candidate. -/
theorem c7_witness :
    (qrImg0.width < svc1.patternWidth ∨ qrImg0.height < svc1.patternHeight) ∧
    findPatternInQr svc1 (some qrImg0) = none :=
  ⟨by decide,
    c7_findPatternInQr_dimension_guard svc1 qrImg0 (by decide)⟩

/-- Witness for C10: a fresh service with no pattern loaded returns `null`. -/
theorem c10_witness : findPatternInQr svc0 (some qrImg1) = none :=
  c10_findPatternInQr_total_null svc0 (some qrImg1) (Or.inl rfl)

/-!  Scheduler / worker-pool state machine from `server.js`.

The orchestrating thread owns all of this state and mutates it from event
handlers; the embedding makes each handler a function on `SchedState` and a
whole run a fold over a list of events.  Tasks are counted rather than
stored (`taskQueue` holds the queue length); `inFlight` counts tasks that
have been posted to a worker and not yet answered; `shutdownSent`,
`terminated` and `selfTestExecutions` are instrumentation recording which
workers were messaged or terminated and how often the self-test search body
actually ran.  `RUN_MATCHER_TEST_ONCE` is `true` in the source, so it is
inlined as such. -/

structure SchedState where
  isSearching : Bool
  searchedCount : Nat
  foundMatches : List Nat
  testRunCompleted : Bool
  selectedPatternFile : Option String
  mainPatternLoaded : Bool
  workerPool : List Nat
  idleWorkers : List Nat
  taskQueue : Nat
  inFlight : Nat
  workersSuccessfullyInitialized : Nat
  nextWorkerId : Nat
  shutdownSent : List Nat
  terminated : List Nat
  selfTestExecutions : Nat

/-- `createAndAddWorker()`: refuses when the pool already holds
`desiredWorkers` workers or no pattern file has been selected; otherwise
spawns a fresh worker and appends it to the pool. -/
def createAndAddWorker (desiredWorkers : Nat) (s : SchedState) : SchedState :=
  if desiredWorkers ≤ s.workerPool.length then s
  else
    match s.selectedPatternFile with
    | none => s
    | some _ =>
        { s with workerPool := s.workerPool ++ [s.nextWorkerId],
                 nextWorkerId := s.nextWorkerId + 1 }

/-- `assignTaskToWorker(worker)`: if a task is queued and the search is
running, posts it to the worker (removing the worker from the idle list);
otherwise idles the worker if it is pooled and not idle already. -/
def assignTaskToWorker (s : SchedState) (w : Nat) : SchedState :=
  if 0 < s.taskQueue ∧ s.isSearching = true then
    { s with taskQueue := s.taskQueue - 1, inFlight := s.inFlight + 1,
             idleWorkers := s.idleWorkers.erase w }
  else if w ∉ s.idleWorkers ∧ w ∈ s.workerPool then
    { s with idleWorkers := s.idleWorkers ++ [w] }
  else s

/-- `handleWorkerExit(code, worker)`: removes the worker from the pool and
the idle list; while a search is running, a non-zero exit code triggers a
replacement via `createAndAddWorker`. -/
def handleWorkerExit (desiredWorkers : Nat) (code : Nat) (w : Nat)
    (s : SchedState) : SchedState :=
  let s1 := { s with workerPool := s.workerPool.erase w,
                     idleWorkers := s.idleWorkers.erase w }
  if s1.isSearching = true ∧ code ≠ 0 then createAndAddWorker desiredWorkers s1
  else s1

/-- `terminateAndReplaceWorker(worker)`: removes the worker from the pool
and the idle list and calls `terminate()` on it (the induced exit event is
delivered separately). -/
def terminateAndReplaceWorker (s : SchedState) (w : Nat) : SchedState :=
  { s with workerPool := s.workerPool.erase w,
           idleWorkers := s.idleWorkers.erase w,
           terminated := s.terminated ++ [w] }

/-- The `result` branch of `handleWorkerMessage`: counts the searched URL,
records a found match (newest first), and reassigns the worker. -/
def handleResultMsg (s : SchedState) (w : Nat) (match? : Option Nat) :
    SchedState :=
  let s1 := { s with searchedCount := s.searchedCount + 1,
                     inFlight := s.inFlight - 1 }
  let s2 := match match? with
            | some m => { s1 with foundMatches := m :: s1.foundMatches }
            | none => s1
  assignTaskToWorker s2 w

/-- The `ready` branch of `handleWorkerMessage`. -/
def handleReadyMsg (s : SchedState) (w : Nat) : SchedState :=
  let s1 := { s with
    workersSuccessfullyInitialized := s.workersSuccessfullyInitialized + 1,
    idleWorkers := s.idleWorkers ++ [w] }
  assignTaskToWorker s1 w

/-- The `error` branch of `handleWorkerMessage`. -/
def handleErrorMsg (s : SchedState) (w : Nat) : SchedState :=
  terminateAndReplaceWorker s w

/-- `runMainThreadSelfTest()`.  The guard branches (no pattern selected, or
the main-thread matcher has no loaded pattern) mark the test completed
without running it; otherwise the mock candidate is searched
(`selfTestExecutions` records this), a found match (`stMatch`) is recorded,
the searched counter is bumped and the completed flag is set. -/
def runMainThreadSelfTest (stMatch : Option Nat) (s : SchedState) :
    SchedState :=
  match s.selectedPatternFile with
  | none => { s with testRunCompleted := true }
  | some _ =>
      if s.mainPatternLoaded = false then { s with testRunCompleted := true }
      else
        let s1 := { s with selfTestExecutions := s.selfTestExecutions + 1 }
        let s2 := match stMatch with
                  | some m => { s1 with foundMatches := m :: s1.foundMatches }
                  | none => s1
        { s2 with searchedCount := s2.searchedCount + 1,
                  testRunCompleted := true }

/-- The queue-refill loop of `mainSearchScheduler`: tops the queue up to the
high-water mark `desiredWorkers * 3` while the search is running. -/
def fillQueue (desiredWorkers : Nat) (s : SchedState) : SchedState :=
  if s.isSearching = true then
    { s with taskQueue := max s.taskQueue (desiredWorkers * 3) }
  else s

/-- The assignment loop of `mainSearchScheduler`: while there is an idle
worker and a queued task, pops one of each and posts the task. -/
def assignLoop : List Nat → Nat → Nat → List Nat × Nat × Nat
  | _w :: rest, q + 1, fl => assignLoop rest q (fl + 1)
  | idle, q, fl => (idle, q, fl)

/-- Applies the outcome of the assignment loop to the state. -/
def tickAssign (s : SchedState) : SchedState :=
  { s with
      idleWorkers := (assignLoop s.idleWorkers s.taskQueue s.inFlight).1,
      taskQueue := (assignLoop s.idleWorkers s.taskQueue s.inFlight).2.1,
      inFlight := (assignLoop s.idleWorkers s.taskQueue s.inFlight).2.2 }

/-- One `mainSearchScheduler` iteration (`RUN_MATCHER_TEST_ONCE = true`):
bail out if not searching, run the self-test if not yet completed, refill
the queue to the high-water mark, then assign queued tasks to idle
workers. -/
def schedulerTick (desiredWorkers : Nat) (stMatch : Option Nat)
    (s : SchedState) : SchedState :=
  if s.isSearching = false then s
  else
    tickAssign (fillQueue desiredWorkers
      (if s.testRunCompleted = false then runMainThreadSelfTest stMatch s
       else s))

/-- `initializeSearchStateForStart()` (with `RUN_MATCHER_TEST_ONCE = true`,
so `testRunCompleted` resets to `false`); `selfTestExecutions` is the ghost
per-session execution counter and restarts at zero. -/
def initializeSearchStateForStart (s : SchedState) : SchedState :=
  { s with isSearching := true, testRunCompleted := false, searchedCount := 0,
           workersSuccessfullyInitialized := 0, idleWorkers := [],
           taskQueue := 0, selfTestExecutions := 0 }

/-- The worker-creation loop of `resetAndInitializeWorkerPool`. -/
def createWorkersLoop (desiredWorkers : Nat) : Nat → SchedState → SchedState
  | 0, s => s
  | n + 1, s => createWorkersLoop desiredWorkers n (createAndAddWorker desiredWorkers s)

/-- `resetAndInitializeWorkerPool()`: terminates and pops every existing
worker (their unreported tasks die with them), then, if a pattern is
selected, runs `createAndAddWorker` `desiredWorkers` times. -/
def resetAndInitializeWorkerPool (desiredWorkers : Nat) (s : SchedState) :
    SchedState :=
  let s1 := { s with workerPool := [],
                     terminated := s.terminated ++ s.workerPool,
                     inFlight := 0 }
  match s1.selectedPatternFile with
  | none => s1
  | some _ => createWorkersLoop desiredWorkers desiredWorkers s1

/-- The `startSearch` socket handler.  `ensureMainPatternLoadedForTest` may
load the main-thread pattern on demand; `loadOk` is the outcome of that
attempted load when one is needed. -/
def handleStartSearch (desiredWorkers : Nat) (loadOk : Bool) (s : SchedState) :
    SchedState :=
  if s.isSearching = true then s
  else
    match s.selectedPatternFile with
    | none => s
    | some _ =>
        if s.mainPatternLoaded = false ∧ loadOk = false then s
        else
          resetAndInitializeWorkerPool desiredWorkers
            (initializeSearchStateForStart { s with mainPatternLoaded := true })

/-- The `stopSearch` socket handler: flips the running flag, drains the task
queue, sends `shutdown` to every active worker and clears the idle list. -/
def handleStopSearch (s : SchedState) : SchedState :=
  if s.isSearching = false then s
  else
    { s with isSearching := false, taskQueue := 0,
             shutdownSent := s.shutdownSent ++ s.workerPool,
             idleWorkers := [] }

/-- The events the orchestrating thread reacts to. -/
inductive SchedEvent where
  | tick (stMatch : Option Nat)
  | ready (w : Nat)
  | result (w : Nat) (match? : Option Nat)
  | workerError (w : Nat)
  | workerExit (w : Nat) (code : Nat)
  | startSearch (loadOk : Bool)
  | stopSearch

/-- Dispatch one event to its handler. -/
def schedStep (desiredWorkers : Nat) (e : SchedEvent) (s : SchedState) :
    SchedState :=
  match e with
  | SchedEvent.tick stMatch => schedulerTick desiredWorkers stMatch s
  | SchedEvent.ready w => handleReadyMsg s w
  | SchedEvent.result w match? => handleResultMsg s w match?
  | SchedEvent.workerError w => handleErrorMsg s w
  | SchedEvent.workerExit w code => handleWorkerExit desiredWorkers code w s
  | SchedEvent.startSearch loadOk => handleStartSearch desiredWorkers loadOk s
  | SchedEvent.stopSearch => handleStopSearch s

/-- Process a list of events in order. -/
def runTrace (desiredWorkers : Nat) (tr : List SchedEvent) (s : SchedState) :
    SchedState :=
  tr.foldl (fun s e => schedStep desiredWorkers e s) s

/-! Frame lemmas: which handlers leave the worker pool untouched. -/

theorem assignTaskToWorker_pool (s : SchedState) (w : Nat) :
    (assignTaskToWorker s w).workerPool = s.workerPool := by
  unfold assignTaskToWorker
  split
  · rfl
  · split <;> rfl

theorem runMainThreadSelfTest_pool (stMatch : Option Nat) (s : SchedState) :
    (runMainThreadSelfTest stMatch s).workerPool = s.workerPool := by
  unfold runMainThreadSelfTest
  cases s.selectedPatternFile
  · rfl
  · dsimp only
    split
    · rfl
    · cases stMatch <;> rfl

theorem fillQueue_pool (desiredWorkers : Nat) (s : SchedState) :
    (fillQueue desiredWorkers s).workerPool = s.workerPool := by
  unfold fillQueue
  split <;> rfl

theorem schedulerTick_pool (desiredWorkers : Nat) (stMatch : Option Nat)
    (s : SchedState) :
    (schedulerTick desiredWorkers stMatch s).workerPool = s.workerPool := by
  unfold schedulerTick
  split
  · rfl
  · show (fillQueue desiredWorkers _).workerPool = _
    rw [fillQueue_pool]
    split
    · exact runMainThreadSelfTest_pool _ _
    · rfl

theorem handleResultMsg_pool (s : SchedState) (w : Nat) (match? : Option Nat) :
    (handleResultMsg s w match?).workerPool = s.workerPool := by
  unfold handleResultMsg
  cases match? <;> simp [assignTaskToWorker_pool]

theorem handleReadyMsg_pool (s : SchedState) (w : Nat) :
    (handleReadyMsg s w).workerPool = s.workerPool := by
  unfold handleReadyMsg
  simp [assignTaskToWorker_pool]

theorem createAndAddWorker_length_le (desiredWorkers : Nat) (s : SchedState)
    (h : s.workerPool.length ≤ desiredWorkers) :
    (createAndAddWorker desiredWorkers s).workerPool.length ≤ desiredWorkers := by
  unfold createAndAddWorker
  split
  · exact h
  · next hlt =>
      cases s.selectedPatternFile
      · exact h
      · simp only [List.length_append, List.length_cons, List.length_nil]
        omega

theorem createWorkersLoop_length_le (desiredWorkers : Nat) :
    ∀ (n : Nat) (s : SchedState), s.workerPool.length ≤ desiredWorkers →
      (createWorkersLoop desiredWorkers n s).workerPool.length ≤ desiredWorkers := by
  intro n
  induction n with
  | zero => intro s h; exact h
  | succ k ih =>
      intro s h
      exact ih _ (createAndAddWorker_length_le _ _ h)

theorem schedStep_pool_le (desiredWorkers : Nat) (e : SchedEvent)
    (s : SchedState) (h : s.workerPool.length ≤ desiredWorkers) :
    (schedStep desiredWorkers e s).workerPool.length ≤ desiredWorkers := by
  cases e with
  | tick stMatch => rw [schedStep, schedulerTick_pool]; exact h
  | ready w => rw [schedStep, handleReadyMsg_pool]; exact h
  | result w match? => rw [schedStep, handleResultMsg_pool]; exact h
  | workerError w =>
      have := List.length_erase_le w s.workerPool
      simp only [schedStep, handleErrorMsg, terminateAndReplaceWorker]
      omega
  | workerExit w code =>
      simp only [schedStep, handleWorkerExit]
      split
      · apply createAndAddWorker_length_le
        have := List.length_erase_le w s.workerPool
        simp only
        omega
      · have := List.length_erase_le w s.workerPool
        simp only
        omega
  | startSearch loadOk =>
      simp only [schedStep, handleStartSearch]
      split
      · exact h
      · cases hsel : s.selectedPatternFile with
        | none => simp only [hsel]; exact h
        | some p =>
            simp only [hsel]
            split
            · exact h
            · simp only [initializeSearchStateForStart,
                resetAndInitializeWorkerPool, hsel]
              exact createWorkersLoop_length_le _ _ _ (by simp)
  | stopSearch =>
      simp only [schedStep, handleStopSearch]
      split
      · exact h
      · exact h

theorem runTrace_pool_le (desiredWorkers : Nat) (tr : List SchedEvent) :
    ∀ s : SchedState, s.workerPool.length ≤ desiredWorkers →
      (runTrace desiredWorkers tr s).workerPool.length ≤ desiredWorkers := by
  induction tr with
  | nil => intro s h; exact h
  | cons e rest ih =>
      intro s h
      exact ih _ (schedStep_pool_le desiredWorkers e s h)

/-- **C3**: for every running session and every sequence of worker
crash/replace events, the active pool size never exceeds the configured
target `desiredWorkers` (`createAndAddWorker` refuses when the pool is
full), and processing a crash exit while the session is running restores a
full pool to exactly `desiredWorkers`. -/
theorem c3_pool_size_invariant (desiredWorkers : Nat) (s : SchedState)
    (tr : List SchedEvent) (w code : Nat) (p : String)
    (hbound : s.workerPool.length ≤ desiredWorkers) :
    (runTrace desiredWorkers tr s).workerPool.length ≤ desiredWorkers ∧
    (desiredWorkers ≤ s.workerPool.length →
      createAndAddWorker desiredWorkers s = s) ∧
    (s.isSearching = true → s.selectedPatternFile = some p → code ≠ 0 →
      s.workerPool.length = desiredWorkers →
      (schedStep desiredWorkers (SchedEvent.workerExit w code) s).workerPool.length
        = desiredWorkers) := by
  refine ⟨runTrace_pool_le _ _ _ hbound, ?_, ?_⟩
  · intro hfull
    unfold createAndAddWorker
    rw [if_pos hfull]
  · intro hrun hsel hcode hfullN
    simp only [schedStep, handleWorkerExit]
    rw [if_pos (show _ ∧ code ≠ 0 from ⟨hrun, hcode⟩)]
    by_cases hmem : w ∈ s.workerPool
    · have hlen : (s.workerPool.erase w).length = desiredWorkers - 1 := by
        rw [List.length_erase_of_mem hmem, hfullN]
      have hpos : 0 < desiredWorkers := by
        have := List.length_pos_of_mem hmem
        omega
      unfold createAndAddWorker
      rw [if_neg (by simp only [hlen]; omega)]
      simp only [hsel, List.length_append, List.length_cons, List.length_nil,
        hlen]
      omega
    · have hsame : s.workerPool.erase w = s.workerPool :=
        List.erase_of_not_mem hmem
      unfold createAndAddWorker
      rw [if_pos (by simp only [hsame]; omega)]
      simp only [hsame, hfullN]

/-- `createAndAddWorker` on a non-full pool with a selected pattern spawns
one fresh worker. -/
theorem createAndAddWorker_spawns (desiredWorkers : Nat) (s : SchedState)
    (p : String) (hn : s.workerPool.length < desiredWorkers)
    (hsel : s.selectedPatternFile = some p) :
    createAndAddWorker desiredWorkers s =
      { s with workerPool := s.workerPool ++ [s.nextWorkerId],
               nextWorkerId := s.nextWorkerId + 1 } := by
  unfold createAndAddWorker
  rw [if_neg (by omega), hsel]

/-- While a search is running, a non-zero exit removes the worker and runs
`createAndAddWorker` on the shrunken pool. -/
theorem handleWorkerExit_searching_eq (desiredWorkers code w : Nat)
    (s : SchedState) (h : s.isSearching = true) (hc : code ≠ 0) :
    handleWorkerExit desiredWorkers code w s =
      createAndAddWorker desiredWorkers
        { s with workerPool := s.workerPool.erase w,
                 idleWorkers := s.idleWorkers.erase w } := by
  simp only [handleWorkerExit]
  rw [if_pos (show _ ∧ code ≠ 0 from ⟨h, hc⟩)]

/-- While running, a non-zero exit of a worker no longer in the pool keeps
the removals and appends exactly one fresh worker. -/
theorem handleWorkerExit_replaces (desiredWorkers code w : Nat)
    (t : SchedState) (p : String) (h : t.isSearching = true) (hc : code ≠ 0)
    (hnp : w ∉ t.workerPool) (hlt : t.workerPool.length < desiredWorkers)
    (hsel : t.selectedPatternFile = some p) :
    handleWorkerExit desiredWorkers code w t =
      { t with idleWorkers := t.idleWorkers.erase w,
               workerPool := t.workerPool ++ [t.nextWorkerId],
               nextWorkerId := t.nextWorkerId + 1 } := by
  rw [handleWorkerExit_searching_eq desiredWorkers code w t h hc]
  rw [List.erase_of_not_mem hnp]
  rw [createAndAddWorker_spawns desiredWorkers
    { t with idleWorkers := t.idleWorkers.erase w } p hlt hsel]

/-- When the session is not running, a worker exit is pure removal: the
exit handler never spawns a replacement. -/
theorem handleWorkerExit_not_searching (desiredWorkers : Nat) (t : SchedState)
    (w code : Nat) (h : t.isSearching = false) :
    (schedStep desiredWorkers (SchedEvent.workerExit w code) t).workerPool
        = t.workerPool.erase w ∧
    (schedStep desiredWorkers (SchedEvent.workerExit w code) t).isSearching
        = false := by
  simp only [schedStep, handleWorkerExit]
  rw [if_neg (by simp only [h]; simp)]
  exact ⟨rfl, h⟩

/-- After a stop, any sequence of exit events only shrinks the pool. -/
theorem runTrace_exits_no_replacement (desiredWorkers : Nat) :
    ∀ (exits : List (Nat × Nat)) (t : SchedState), t.isSearching = false →
      (runTrace desiredWorkers
          (exits.map fun pr => SchedEvent.workerExit pr.1 pr.2) t).workerPool.length
        ≤ t.workerPool.length ∧
      (runTrace desiredWorkers
          (exits.map fun pr => SchedEvent.workerExit pr.1 pr.2) t).isSearching
        = false := by
  intro exits
  induction exits with
  | nil => intro t h; exact ⟨Nat.le_refl _, h⟩
  | cons pr rest ih =>
      intro t h
      have hstep := handleWorkerExit_not_searching desiredWorkers t pr.1 pr.2 h
      have hrec := ih (schedStep desiredWorkers
        (SchedEvent.workerExit pr.1 pr.2) t) hstep.2
      have hle : (schedStep desiredWorkers
          (SchedEvent.workerExit pr.1 pr.2) t).workerPool.length
            ≤ t.workerPool.length := by
        rw [hstep.1]; exact List.length_erase_le pr.1 t.workerPool
      exact ⟨Nat.le_trans hrec.1 hle, hrec.2⟩

/-- **C5**: `stopSearch` on a running session flips the running flag false,
empties the task queue, sends `shutdown` to every active worker and clears
the idle list; afterwards, exits are handled by the ordinary exit handler,
which with the flag false removes without replacing, so the pool never
grows again. -/
theorem c5_stopSession_drains_and_never_replaces (desiredWorkers : Nat)
    (s : SchedState) (exits : List (Nat × Nat)) (h : s.isSearching = true) :
    (handleStopSearch s).isSearching = false ∧
    (handleStopSearch s).taskQueue = 0 ∧
    (handleStopSearch s).idleWorkers = [] ∧
    (∀ w ∈ s.workerPool, w ∈ (handleStopSearch s).shutdownSent) ∧
    (∀ t : SchedState, t.isSearching = false → ∀ w code,
      (schedStep desiredWorkers (SchedEvent.workerExit w code) t).workerPool
        = t.workerPool.erase w) ∧
    (runTrace desiredWorkers
        (exits.map fun pr => SchedEvent.workerExit pr.1 pr.2)
        (handleStopSearch s)).workerPool.length
      ≤ (handleStopSearch s).workerPool.length := by
  have hstop : handleStopSearch s =
      { s with isSearching := false, taskQueue := 0,
               shutdownSent := s.shutdownSent ++ s.workerPool,
               idleWorkers := [] } := by
    unfold handleStopSearch
    rw [if_neg (by simp [h])]
  refine ⟨by rw [hstop], by rw [hstop], by rw [hstop], ?_, ?_, ?_⟩
  · intro w hw
    rw [hstop]
    exact List.mem_append.mpr (Or.inr hw)
  · intro t ht w code
    exact (handleWorkerExit_not_searching desiredWorkers t w code ht).1
  · exact (runTrace_exits_no_replacement desiredWorkers exits
      (handleStopSearch s) (by rw [hstop])).1

/-- **C6**: on a worker error message the Scheduler removes the worker from
both the active pool and the idle list and terminates it; the
terminate-induced exit (non-zero code) then spawns exactly one replacement
while the session is running, returning the pool to size `desiredWorkers`. -/
theorem c6_error_removes_terminates_replaces (desiredWorkers : Nat)
    (p : String) (s : SchedState) (w : Nat)
    (hrun : s.isSearching = true) (hsel : s.selectedPatternFile = some p)
    (hfull : s.workerPool.length = desiredWorkers)
    (hmem : w ∈ s.workerPool)
    (hnodupP : s.workerPool.Nodup) (hnodupI : s.idleWorkers.Nodup) :
    let s1 := schedStep desiredWorkers (SchedEvent.workerError w) s
    let s2 := schedStep desiredWorkers (SchedEvent.workerExit w 1) s1
    w ∉ s1.workerPool ∧ w ∉ s1.idleWorkers ∧ w ∈ s1.terminated ∧
    s1.workerPool.length = desiredWorkers - 1 ∧
    s2.workerPool = s1.workerPool ++ [s1.nextWorkerId] ∧
    s2.workerPool.length = desiredWorkers := by
  intro s1 s2
  have hpos : 0 < desiredWorkers := by
    have := List.length_pos_of_mem hmem
    omega
  have hs1 : s1 = { s with workerPool := s.workerPool.erase w,
                           idleWorkers := s.idleWorkers.erase w,
                           terminated := s.terminated ++ [w] } := rfl
  have hnotP : w ∉ s.workerPool.erase w := by
    intro hc
    exact absurd ((hnodupP.mem_erase_iff).mp hc).1 (by simp)
  have hnotI : w ∉ s.idleWorkers.erase w := by
    intro hc
    exact absurd ((hnodupI.mem_erase_iff).mp hc).1 (by simp)
  have hlen1 : s1.workerPool.length = desiredWorkers - 1 := by
    rw [hs1]
    simp only [List.length_erase_of_mem hmem, hfull]
  have hs2 : s2.workerPool = s1.workerPool ++ [s1.nextWorkerId] := by
    show (handleWorkerExit desiredWorkers 1 w s1).workerPool = _
    rw [handleWorkerExit_replaces desiredWorkers 1 w s1 p hrun (by simp)
      hnotP (by omega) hsel]
  refine ⟨hnotP, hnotI, ?_, hlen1, hs2, ?_⟩
  · rw [hs1]
    exact List.mem_append.mpr (Or.inr (by simp))
  · rw [hs2]
    simp only [List.length_append, List.length_cons, List.length_nil, hlen1]
    omega

/-! Frame lemmas: worker creation and pool reset do not touch the session
counters or the match history. -/

theorem createAndAddWorker_frame (desiredWorkers : Nat) (s : SchedState) :
    (createAndAddWorker desiredWorkers s).searchedCount = s.searchedCount ∧
    (createAndAddWorker desiredWorkers s).testRunCompleted = s.testRunCompleted ∧
    (createAndAddWorker desiredWorkers s).foundMatches = s.foundMatches := by
  unfold createAndAddWorker
  split
  · exact ⟨rfl, rfl, rfl⟩
  · cases s.selectedPatternFile <;> exact ⟨rfl, rfl, rfl⟩

theorem createWorkersLoop_frame (desiredWorkers : Nat) :
    ∀ (n : Nat) (s : SchedState),
      (createWorkersLoop desiredWorkers n s).searchedCount = s.searchedCount ∧
      (createWorkersLoop desiredWorkers n s).testRunCompleted
        = s.testRunCompleted ∧
      (createWorkersLoop desiredWorkers n s).foundMatches = s.foundMatches := by
  intro n
  induction n with
  | zero => intro s; exact ⟨rfl, rfl, rfl⟩
  | succ k ih =>
      intro s
      have h1 := createAndAddWorker_frame desiredWorkers s
      have h2 := ih (createAndAddWorker desiredWorkers s)
      exact ⟨h2.1.trans h1.1, h2.2.1.trans h1.2.1, h2.2.2.trans h1.2.2⟩

theorem resetAndInitializeWorkerPool_frame (desiredWorkers : Nat)
    (s : SchedState) :
    (resetAndInitializeWorkerPool desiredWorkers s).searchedCount
      = s.searchedCount ∧
    (resetAndInitializeWorkerPool desiredWorkers s).testRunCompleted
      = s.testRunCompleted ∧
    (resetAndInitializeWorkerPool desiredWorkers s).foundMatches
      = s.foundMatches := by
  unfold resetAndInitializeWorkerPool
  dsimp only
  split
  · exact ⟨rfl, rfl, rfl⟩
  · exact createWorkersLoop_frame desiredWorkers desiredWorkers _

theorem handleStartSearch_foundMatches (desiredWorkers : Nat) (loadOk : Bool)
    (s : SchedState) :
    (handleStartSearch desiredWorkers loadOk s).foundMatches
      = s.foundMatches := by
  unfold handleStartSearch
  split
  · rfl
  split
  · rfl
  split
  · rfl
  · exact (resetAndInitializeWorkerPool_frame _ _).2.2

theorem handleStopSearch_foundMatches (s : SchedState) :
    (handleStopSearch s).foundMatches = s.foundMatches := by
  unfold handleStopSearch
  split <;> rfl

theorem runTrace_startStop_foundMatches (desiredWorkers : Nat) :
    ∀ (tr : List SchedEvent) (s : SchedState),
      (∀ e ∈ tr, (∃ b, e = SchedEvent.startSearch b) ∨ e = SchedEvent.stopSearch) →
      (runTrace desiredWorkers tr s).foundMatches = s.foundMatches := by
  intro tr
  induction tr with
  | nil => intro s _; rfl
  | cons e rest ih =>
      intro s htr
      have hstep : (schedStep desiredWorkers e s).foundMatches
          = s.foundMatches := by
        rcases htr e (by simp) with ⟨b, hb⟩ | hb
        · rw [hb]
          exact handleStartSearch_foundMatches desiredWorkers b s
        · rw [hb]
          exact handleStopSearch_foundMatches s
      have hrest := ih (schedStep desiredWorkers e s)
        (fun e' he' => htr e' (by simp [he']))
      exact hrest.trans hstep

/-- When a start request actually proceeds (not already running, a pattern
selected, and the main-thread pattern available), the handler resets the
session state and rebuilds the pool. -/
theorem handleStartSearch_proceeds (desiredWorkers : Nat) (loadOk : Bool)
    (s : SchedState) (p : String)
    (hstopped : s.isSearching = false) (hsel : s.selectedPatternFile = some p)
    (hok : s.mainPatternLoaded = true ∨ loadOk = true) :
    handleStartSearch desiredWorkers loadOk s =
      resetAndInitializeWorkerPool desiredWorkers
        (initializeSearchStateForStart { s with mainPatternLoaded := true }) := by
  unfold handleStartSearch
  rw [if_neg (by simp [hstopped]), hsel]
  show (if s.mainPatternLoaded = false ∧ loadOk = false then s else _) = _
  rw [if_neg (by rcases hok with h | h <;> simp [h])]

/-- **C8**: every start transition that proceeds resets the searched count
to 0 and the self-test-completed flag to false while leaving the match
history unchanged, and the match history persists across arbitrary
stop/start cycles within one process lifetime. -/
theorem c8_start_resets_counters_keeps_history (desiredWorkers : Nat)
    (p : String) (s : SchedState) (loadOk : Bool) (tr : List SchedEvent)
    (hstopped : s.isSearching = false) (hsel : s.selectedPatternFile = some p)
    (hok : s.mainPatternLoaded = true ∨ loadOk = true)
    (htr : ∀ e ∈ tr,
      (∃ b, e = SchedEvent.startSearch b) ∨ e = SchedEvent.stopSearch) :
    (schedStep desiredWorkers (SchedEvent.startSearch loadOk) s).searchedCount
      = 0 ∧
    (schedStep desiredWorkers (SchedEvent.startSearch loadOk) s).testRunCompleted
      = false ∧
    (schedStep desiredWorkers (SchedEvent.startSearch loadOk) s).foundMatches
      = s.foundMatches ∧
    (runTrace desiredWorkers tr s).foundMatches = s.foundMatches := by
  have hstep : schedStep desiredWorkers (SchedEvent.startSearch loadOk) s =
      resetAndInitializeWorkerPool desiredWorkers
        (initializeSearchStateForStart { s with mainPatternLoaded := true }) :=
    handleStartSearch_proceeds desiredWorkers loadOk s p hstopped hsel hok
  have hframe := resetAndInitializeWorkerPool_frame desiredWorkers
    (initializeSearchStateForStart { s with mainPatternLoaded := true })
  refine ⟨?_, ?_, ?_, runTrace_startStop_foundMatches desiredWorkers tr s htr⟩
  · rw [hstep]
    exact hframe.1
  · rw [hstep]
    exact hframe.2.1
  · rw [hstep]
    exact hframe.2.2

/-!  Self-test-once invariants (C4).

`stInv` ties the completed flag to the ghost execution counter: within a
session the self-test body has run exactly once iff the flag is set, and
never more than once.  `queueInv` says tasks exist (queued or in flight)
only once the self-test branch of the scheduler has completed — task
generation happens strictly after it inside each tick. -/

def stInv (s : SchedState) : Prop :=
  s.selfTestExecutions ≤ 1 ∧
  (s.testRunCompleted = true ↔ s.selfTestExecutions = 1)

def queueInv (s : SchedState) : Prop :=
  (0 < s.taskQueue ∨ 0 < s.inFlight) → s.testRunCompleted = true

theorem assignTaskToWorker_frame2 (s : SchedState) (w : Nat) :
    (assignTaskToWorker s w).testRunCompleted = s.testRunCompleted ∧
    (assignTaskToWorker s w).selfTestExecutions = s.selfTestExecutions ∧
    (assignTaskToWorker s w).searchedCount = s.searchedCount ∧
    (assignTaskToWorker s w).selectedPatternFile = s.selectedPatternFile ∧
    (assignTaskToWorker s w).mainPatternLoaded = s.mainPatternLoaded ∧
    (assignTaskToWorker s w).isSearching = s.isSearching ∧
    ((0 < (assignTaskToWorker s w).taskQueue ∨
        0 < (assignTaskToWorker s w).inFlight) →
      (0 < s.taskQueue ∨ 0 < s.inFlight)) := by
  unfold assignTaskToWorker
  split
  · next hc => exact ⟨rfl, rfl, rfl, rfl, rfl, rfl, fun _ => Or.inl hc.1⟩
  · split
    · exact ⟨rfl, rfl, rfl, rfl, rfl, rfl, fun h => h⟩
    · exact ⟨rfl, rfl, rfl, rfl, rfl, rfl, fun h => h⟩

theorem handleResultMsg_fields (s : SchedState) (w : Nat) (match? : Option Nat) :
    (handleResultMsg s w match?).searchedCount = s.searchedCount + 1 ∧
    (handleResultMsg s w match?).testRunCompleted = s.testRunCompleted ∧
    (handleResultMsg s w match?).selfTestExecutions = s.selfTestExecutions ∧
    (handleResultMsg s w match?).selectedPatternFile = s.selectedPatternFile ∧
    (handleResultMsg s w match?).mainPatternLoaded = s.mainPatternLoaded ∧
    (handleResultMsg s w match?).isSearching = s.isSearching ∧
    ((0 < (handleResultMsg s w match?).taskQueue ∨
        0 < (handleResultMsg s w match?).inFlight) →
      (0 < s.taskQueue ∨ 0 < s.inFlight)) := by
  unfold handleResultMsg
  cases match? with
  | none =>
      have h := assignTaskToWorker_frame2
        { s with searchedCount := s.searchedCount + 1,
                 inFlight := s.inFlight - 1 } w
      refine ⟨h.2.2.1, h.1, h.2.1, h.2.2.2.1, h.2.2.2.2.1, h.2.2.2.2.2.1, ?_⟩
      intro hq
      have := h.2.2.2.2.2.2 hq
      simp only at this
      omega
  | some m =>
      have h := assignTaskToWorker_frame2
        { s with searchedCount := s.searchedCount + 1,
                 inFlight := s.inFlight - 1,
                 foundMatches := m :: s.foundMatches } w
      refine ⟨h.2.2.1, h.1, h.2.1, h.2.2.2.1, h.2.2.2.2.1, h.2.2.2.2.2.1, ?_⟩
      intro hq
      have := h.2.2.2.2.2.2 hq
      simp only at this
      omega

theorem handleReadyMsg_fields (s : SchedState) (w : Nat) :
    (handleReadyMsg s w).testRunCompleted = s.testRunCompleted ∧
    (handleReadyMsg s w).selfTestExecutions = s.selfTestExecutions ∧
    (handleReadyMsg s w).selectedPatternFile = s.selectedPatternFile ∧
    (handleReadyMsg s w).mainPatternLoaded = s.mainPatternLoaded ∧
    (handleReadyMsg s w).isSearching = s.isSearching ∧
    ((0 < (handleReadyMsg s w).taskQueue ∨ 0 < (handleReadyMsg s w).inFlight) →
      (0 < s.taskQueue ∨ 0 < s.inFlight)) := by
  unfold handleReadyMsg
  have h := assignTaskToWorker_frame2
    { s with
        workersSuccessfullyInitialized := s.workersSuccessfullyInitialized + 1,
        idleWorkers := s.idleWorkers ++ [w] } w
  exact ⟨h.1, h.2.1, h.2.2.2.1, h.2.2.2.2.1, h.2.2.2.2.2.1,
    fun hq => h.2.2.2.2.2.2 hq⟩

theorem createAndAddWorker_frame2 (desiredWorkers : Nat) (s : SchedState) :
    (createAndAddWorker desiredWorkers s).testRunCompleted
      = s.testRunCompleted ∧
    (createAndAddWorker desiredWorkers s).selfTestExecutions
      = s.selfTestExecutions ∧
    (createAndAddWorker desiredWorkers s).taskQueue = s.taskQueue ∧
    (createAndAddWorker desiredWorkers s).inFlight = s.inFlight ∧
    (createAndAddWorker desiredWorkers s).selectedPatternFile
      = s.selectedPatternFile ∧
    (createAndAddWorker desiredWorkers s).mainPatternLoaded
      = s.mainPatternLoaded ∧
    (createAndAddWorker desiredWorkers s).isSearching = s.isSearching ∧
    (createAndAddWorker desiredWorkers s).searchedCount = s.searchedCount := by
  unfold createAndAddWorker
  split
  · exact ⟨rfl, rfl, rfl, rfl, rfl, rfl, rfl, rfl⟩
  · cases hsel : s.selectedPatternFile <;> simp [hsel]

theorem handleWorkerExit_frame2 (desiredWorkers code w : Nat) (s : SchedState) :
    (handleWorkerExit desiredWorkers code w s).testRunCompleted
      = s.testRunCompleted ∧
    (handleWorkerExit desiredWorkers code w s).selfTestExecutions
      = s.selfTestExecutions ∧
    (handleWorkerExit desiredWorkers code w s).taskQueue = s.taskQueue ∧
    (handleWorkerExit desiredWorkers code w s).inFlight = s.inFlight ∧
    (handleWorkerExit desiredWorkers code w s).selectedPatternFile
      = s.selectedPatternFile ∧
    (handleWorkerExit desiredWorkers code w s).mainPatternLoaded
      = s.mainPatternLoaded ∧
    (handleWorkerExit desiredWorkers code w s).isSearching = s.isSearching := by
  simp only [handleWorkerExit]
  split
  · have h := createAndAddWorker_frame2 desiredWorkers
      { s with workerPool := s.workerPool.erase w,
               idleWorkers := s.idleWorkers.erase w }
    exact ⟨h.1, h.2.1, h.2.2.1, h.2.2.2.1, h.2.2.2.2.1, h.2.2.2.2.2.1,
      h.2.2.2.2.2.2.1⟩
  · exact ⟨rfl, rfl, rfl, rfl, rfl, rfl, rfl⟩

theorem runMainThreadSelfTest_completes (stMatch : Option Nat) (s : SchedState) :
    (runMainThreadSelfTest stMatch s).testRunCompleted = true ∧
    (runMainThreadSelfTest stMatch s).selectedPatternFile
      = s.selectedPatternFile ∧
    (runMainThreadSelfTest stMatch s).mainPatternLoaded
      = s.mainPatternLoaded ∧
    (runMainThreadSelfTest stMatch s).isSearching = s.isSearching ∧
    (runMainThreadSelfTest stMatch s).selfTestExecutions ≤
      s.selfTestExecutions + 1 ∧
    (runMainThreadSelfTest stMatch s).taskQueue = s.taskQueue ∧
    (runMainThreadSelfTest stMatch s).inFlight = s.inFlight := by
  unfold runMainThreadSelfTest
  cases s.selectedPatternFile
  · exact ⟨rfl, rfl, rfl, rfl, by simp, rfl, rfl⟩
  · dsimp only
    split
    · exact ⟨rfl, rfl, rfl, rfl, by simp, rfl, rfl⟩
    · cases stMatch <;> exact ⟨rfl, rfl, rfl, rfl, by simp, rfl, rfl⟩

/-- With a pattern selected and the main-thread pattern loaded, the
self-test takes its executing branch: the search body runs once and the
completed flag is set. -/
theorem runMainThreadSelfTest_executes (stMatch : Option Nat) (s : SchedState)
    (p : String) (hsel : s.selectedPatternFile = some p)
    (hld : s.mainPatternLoaded = true) :
    (runMainThreadSelfTest stMatch s).testRunCompleted = true ∧
    (runMainThreadSelfTest stMatch s).selfTestExecutions
      = s.selfTestExecutions + 1 := by
  unfold runMainThreadSelfTest
  rw [hsel]
  show ((if s.mainPatternLoaded = false then _ else _ : SchedState)).testRunCompleted = true ∧ _
  rw [if_neg (by simp [hld])]
  cases stMatch <;> exact ⟨rfl, rfl⟩

theorem fillQueue_frame2 (desiredWorkers : Nat) (s : SchedState) :
    (fillQueue desiredWorkers s).testRunCompleted = s.testRunCompleted ∧
    (fillQueue desiredWorkers s).selfTestExecutions = s.selfTestExecutions ∧
    (fillQueue desiredWorkers s).selectedPatternFile = s.selectedPatternFile ∧
    (fillQueue desiredWorkers s).mainPatternLoaded = s.mainPatternLoaded ∧
    (fillQueue desiredWorkers s).inFlight = s.inFlight ∧
    (fillQueue desiredWorkers s).isSearching = s.isSearching := by
  unfold fillQueue
  split <;> exact ⟨rfl, rfl, rfl, rfl, rfl, rfl⟩

theorem tickAssign_frame2 (s : SchedState) :
    (tickAssign s).testRunCompleted = s.testRunCompleted ∧
    (tickAssign s).selfTestExecutions = s.selfTestExecutions ∧
    (tickAssign s).selectedPatternFile = s.selectedPatternFile ∧
    (tickAssign s).mainPatternLoaded = s.mainPatternLoaded ∧
    (tickAssign s).isSearching = s.isSearching ∧
    (tickAssign s).searchedCount = s.searchedCount :=
  ⟨rfl, rfl, rfl, rfl, rfl, rfl⟩

/-- A tick while the search is running always ends with the self-test
marked completed. -/
theorem schedulerTick_completes (desiredWorkers : Nat) (stMatch : Option Nat)
    (s : SchedState) (hrun : s.isSearching = true) :
    (schedulerTick desiredWorkers stMatch s).testRunCompleted = true := by
  unfold schedulerTick
  rw [if_neg (by simp [hrun])]
  rw [(tickAssign_frame2 _).1, (fillQueue_frame2 _ _).1]
  split
  · exact (runMainThreadSelfTest_completes stMatch s).1
  · next hdone => simpa using hdone

/-- A tick while the search is running, with a selected and loaded pattern,
leaves the per-session self-test execution count at exactly one: the first
such tick runs the body once, later ones skip it. -/
theorem schedulerTick_exec_once (desiredWorkers : Nat) (stMatch : Option Nat)
    (s : SchedState) (p : String) (hsel : s.selectedPatternFile = some p)
    (hld : s.mainPatternLoaded = true) (hrun : s.isSearching = true)
    (hst : stInv s) :
    (schedulerTick desiredWorkers stMatch s).selfTestExecutions = 1 := by
  unfold schedulerTick
  rw [if_neg (by simp [hrun])]
  rw [(tickAssign_frame2 _).2.1, (fillQueue_frame2 _ _).2.1]
  rcases hst with ⟨hle, hiff⟩
  split
  · next hdone =>
      have hne1 : ¬ s.selfTestExecutions = 1 := by
        intro hone
        rw [hiff.mpr hone] at hdone
        cases hdone
      have hz : s.selfTestExecutions = 0 := by omega
      rw [(runMainThreadSelfTest_executes stMatch s p hsel hld).2, hz]
  · next hdone =>
      exact hiff.mp (by simpa using hdone)

theorem schedulerTick_sel_loaded (desiredWorkers : Nat) (stMatch : Option Nat)
    (s : SchedState) :
    (schedulerTick desiredWorkers stMatch s).selectedPatternFile
      = s.selectedPatternFile ∧
    (schedulerTick desiredWorkers stMatch s).mainPatternLoaded
      = s.mainPatternLoaded := by
  unfold schedulerTick
  split
  · exact ⟨rfl, rfl⟩
  · constructor
    · rw [(tickAssign_frame2 _).2.2.1, (fillQueue_frame2 _ _).2.2.1]
      split
      · exact (runMainThreadSelfTest_completes stMatch s).2.1
      · rfl
    · rw [(tickAssign_frame2 _).2.2.2.1, (fillQueue_frame2 _ _).2.2.2.1]
      split
      · exact (runMainThreadSelfTest_completes stMatch s).2.2.1
      · rfl

theorem createWorkersLoop_frame2 (desiredWorkers : Nat) :
    ∀ (n : Nat) (s : SchedState),
      (createWorkersLoop desiredWorkers n s).testRunCompleted
        = s.testRunCompleted ∧
      (createWorkersLoop desiredWorkers n s).selfTestExecutions
        = s.selfTestExecutions ∧
      (createWorkersLoop desiredWorkers n s).taskQueue = s.taskQueue ∧
      (createWorkersLoop desiredWorkers n s).inFlight = s.inFlight ∧
      (createWorkersLoop desiredWorkers n s).selectedPatternFile
        = s.selectedPatternFile ∧
      (createWorkersLoop desiredWorkers n s).mainPatternLoaded
        = s.mainPatternLoaded ∧
      (createWorkersLoop desiredWorkers n s).isSearching = s.isSearching ∧
      (createWorkersLoop desiredWorkers n s).searchedCount
        = s.searchedCount := by
  intro n
  induction n with
  | zero =>
      intro s
      exact ⟨rfl, rfl, rfl, rfl, rfl, rfl, rfl, rfl⟩
  | succ k ih =>
      intro s
      have h1 := createAndAddWorker_frame2 desiredWorkers s
      have h2 := ih (createAndAddWorker desiredWorkers s)
      exact ⟨h2.1.trans h1.1, h2.2.1.trans h1.2.1, h2.2.2.1.trans h1.2.2.1,
        h2.2.2.2.1.trans h1.2.2.2.1, h2.2.2.2.2.1.trans h1.2.2.2.2.1,
        h2.2.2.2.2.2.1.trans h1.2.2.2.2.2.1,
        h2.2.2.2.2.2.2.1.trans h1.2.2.2.2.2.2.1,
        h2.2.2.2.2.2.2.2.trans h1.2.2.2.2.2.2.2⟩

theorem resetAndInitializeWorkerPool_fields (desiredWorkers : Nat)
    (s : SchedState) :
    (resetAndInitializeWorkerPool desiredWorkers s).testRunCompleted
      = s.testRunCompleted ∧
    (resetAndInitializeWorkerPool desiredWorkers s).selfTestExecutions
      = s.selfTestExecutions ∧
    (resetAndInitializeWorkerPool desiredWorkers s).taskQueue = s.taskQueue ∧
    (resetAndInitializeWorkerPool desiredWorkers s).inFlight = 0 ∧
    (resetAndInitializeWorkerPool desiredWorkers s).selectedPatternFile
      = s.selectedPatternFile ∧
    (resetAndInitializeWorkerPool desiredWorkers s).mainPatternLoaded
      = s.mainPatternLoaded ∧
    (resetAndInitializeWorkerPool desiredWorkers s).isSearching
      = s.isSearching ∧
    (resetAndInitializeWorkerPool desiredWorkers s).searchedCount
      = s.searchedCount := by
  unfold resetAndInitializeWorkerPool
  dsimp only
  split
  · exact ⟨rfl, rfl, rfl, rfl, rfl, rfl, rfl, rfl⟩
  · have h := createWorkersLoop_frame2 desiredWorkers desiredWorkers
      { s with workerPool := [], terminated := s.terminated ++ s.workerPool,
               inFlight := 0 }
    exact ⟨h.1, h.2.1, h.2.2.1, h.2.2.2.1, h.2.2.2.2.1, h.2.2.2.2.2.1,
      h.2.2.2.2.2.2.1, h.2.2.2.2.2.2.2⟩

/-- A start request either changes nothing (refused) or resets the session
state for a fresh run. -/
theorem handleStartSearch_cases (desiredWorkers : Nat) (loadOk : Bool)
    (s : SchedState) :
    handleStartSearch desiredWorkers loadOk s = s ∨
    ((handleStartSearch desiredWorkers loadOk s).testRunCompleted = false ∧
     (handleStartSearch desiredWorkers loadOk s).selfTestExecutions = 0 ∧
     (handleStartSearch desiredWorkers loadOk s).taskQueue = 0 ∧
     (handleStartSearch desiredWorkers loadOk s).inFlight = 0 ∧
     (handleStartSearch desiredWorkers loadOk s).searchedCount = 0 ∧
     (handleStartSearch desiredWorkers loadOk s).selectedPatternFile
       = s.selectedPatternFile ∧
     (handleStartSearch desiredWorkers loadOk s).mainPatternLoaded = true) := by
  unfold handleStartSearch
  split
  · exact Or.inl rfl
  · split
    · exact Or.inl rfl
    · split
      · exact Or.inl rfl
      · right
        exact ⟨(resetAndInitializeWorkerPool_fields _ _).1,
          (resetAndInitializeWorkerPool_fields _ _).2.1,
          (resetAndInitializeWorkerPool_fields _ _).2.2.1,
          (resetAndInitializeWorkerPool_fields _ _).2.2.2.1,
          (resetAndInitializeWorkerPool_fields _ _).2.2.2.2.2.2.2,
          (resetAndInitializeWorkerPool_fields _ _).2.2.2.2.1,
          (resetAndInitializeWorkerPool_fields _ _).2.2.2.2.2.1⟩

theorem handleStopSearch_fields (s : SchedState) :
    (handleStopSearch s).testRunCompleted = s.testRunCompleted ∧
    (handleStopSearch s).selfTestExecutions = s.selfTestExecutions ∧
    (handleStopSearch s).inFlight = s.inFlight ∧
    (handleStopSearch s).selectedPatternFile = s.selectedPatternFile ∧
    (handleStopSearch s).mainPatternLoaded = s.mainPatternLoaded ∧
    (handleStopSearch s).searchedCount = s.searchedCount ∧
    ((handleStopSearch s).taskQueue = 0 ∨
      (handleStopSearch s).taskQueue = s.taskQueue) := by
  unfold handleStopSearch
  split
  · exact ⟨rfl, rfl, rfl, rfl, rfl, rfl, Or.inr rfl⟩
  · exact ⟨rfl, rfl, rfl, rfl, rfl, rfl, Or.inl rfl⟩

theorem schedStep_stInv (desiredWorkers : Nat) (e : SchedEvent) (s : SchedState)
    (p : String) (hsel : s.selectedPatternFile = some p)
    (hld : s.mainPatternLoaded = true) (h : stInv s) :
    stInv (schedStep desiredWorkers e s) := by
  cases e with
  | tick o =>
      show stInv (schedulerTick desiredWorkers o s)
      by_cases hrun : s.isSearching = true
      · have h1 := schedulerTick_exec_once desiredWorkers o s p hsel hld hrun h
        have h2 := schedulerTick_completes desiredWorkers o s hrun
        constructor
        · simp [h1]
        · simp [h1, h2]
      · have hfalse : s.isSearching = false := by simpa using hrun
        unfold schedulerTick
        rw [if_pos hfalse]
        exact h
  | ready w =>
      show stInv (handleReadyMsg s w)
      have hf := handleReadyMsg_fields s w
      exact ⟨by rw [hf.2.1]; exact h.1, by rw [hf.1, hf.2.1]; exact h.2⟩
  | result w m =>
      show stInv (handleResultMsg s w m)
      have hf := handleResultMsg_fields s w m
      exact ⟨by rw [hf.2.2.1]; exact h.1, by rw [hf.2.1, hf.2.2.1]; exact h.2⟩
  | workerError w => exact h
  | workerExit w code =>
      show stInv (handleWorkerExit desiredWorkers code w s)
      have hf := handleWorkerExit_frame2 desiredWorkers code w s
      exact ⟨by rw [hf.2.1]; exact h.1, by rw [hf.1, hf.2.1]; exact h.2⟩
  | startSearch b =>
      show stInv (handleStartSearch desiredWorkers b s)
      rcases handleStartSearch_cases desiredWorkers b s with heq | hfields
      · rw [heq]; exact h
      · constructor
        · simp [hfields.2.1]
        · rw [hfields.1, hfields.2.1]
          simp
  | stopSearch =>
      show stInv (handleStopSearch s)
      have hf := handleStopSearch_fields s
      exact ⟨by rw [hf.2.1]; exact h.1, by rw [hf.1, hf.2.1]; exact h.2⟩

theorem schedStep_queueInv (desiredWorkers : Nat) (e : SchedEvent)
    (s : SchedState) (h : queueInv s) :
    queueInv (schedStep desiredWorkers e s) := by
  cases e with
  | tick o =>
      show queueInv (schedulerTick desiredWorkers o s)
      by_cases hrun : s.isSearching = true
      · intro _
        exact schedulerTick_completes desiredWorkers o s hrun
      · have hfalse : s.isSearching = false := by simpa using hrun
        unfold schedulerTick
        rw [if_pos hfalse]
        exact h
  | ready w =>
      show queueInv (handleReadyMsg s w)
      have hf := handleReadyMsg_fields s w
      intro hq
      rw [hf.1]
      exact h (hf.2.2.2.2.2 hq)
  | result w m =>
      show queueInv (handleResultMsg s w m)
      have hf := handleResultMsg_fields s w m
      intro hq
      rw [hf.2.1]
      exact h (hf.2.2.2.2.2.2 hq)
  | workerError w => exact h
  | workerExit w code =>
      show queueInv (handleWorkerExit desiredWorkers code w s)
      have hf := handleWorkerExit_frame2 desiredWorkers code w s
      intro hq
      rw [hf.1]
      apply h
      rw [hf.2.2.1, hf.2.2.2.1] at hq
      exact hq
  | startSearch b =>
      rcases handleStartSearch_cases desiredWorkers b s with heq | hfields
      · show queueInv (handleStartSearch desiredWorkers b s)
        rw [heq]
        exact h
      · show queueInv (handleStartSearch desiredWorkers b s)
        intro hq
        rw [hfields.2.2.1, hfields.2.2.2.1] at hq
        rcases hq with hq | hq <;> exact absurd hq (by omega)
  | stopSearch =>
      show queueInv (handleStopSearch s)
      have hf := handleStopSearch_fields s
      intro hq
      rw [hf.1]
      apply h
      rcases hf.2.2.2.2.2.2 with hzero | hsame
      · rcases hq with hq | hq
        · rw [hzero] at hq
          exact absurd hq (by omega)
        · rw [hf.2.2.1] at hq
          exact Or.inr hq
      · rcases hq with hq | hq
        · rw [hsame] at hq
          exact Or.inl hq
        · rw [hf.2.2.1] at hq
          exact Or.inr hq

theorem schedStep_sel_loaded (desiredWorkers : Nat) (e : SchedEvent)
    (s : SchedState) :
    (schedStep desiredWorkers e s).selectedPatternFile = s.selectedPatternFile ∧
    (s.mainPatternLoaded = true →
      (schedStep desiredWorkers e s).mainPatternLoaded = true) := by
  cases e with
  | tick o =>
      have hf := schedulerTick_sel_loaded desiredWorkers o s
      exact ⟨hf.1, fun hl => hf.2.trans hl⟩
  | ready w =>
      have hf := handleReadyMsg_fields s w
      exact ⟨hf.2.2.1, fun hl => hf.2.2.2.1.trans hl⟩
  | result w m =>
      have hf := handleResultMsg_fields s w m
      exact ⟨hf.2.2.2.1, fun hl => hf.2.2.2.2.1.trans hl⟩
  | workerError w => exact ⟨rfl, fun hl => hl⟩
  | workerExit w code =>
      have hf := handleWorkerExit_frame2 desiredWorkers code w s
      exact ⟨hf.2.2.2.2.1, fun hl => hf.2.2.2.2.2.1.trans hl⟩
  | startSearch b =>
      rcases handleStartSearch_cases desiredWorkers b s with heq | hfields
      · constructor
        · show (handleStartSearch desiredWorkers b s).selectedPatternFile = _
          rw [heq]
        · intro hl
          show (handleStartSearch desiredWorkers b s).mainPatternLoaded = true
          rw [heq]
          exact hl
      · exact ⟨hfields.2.2.2.2.2.1, fun _ => hfields.2.2.2.2.2.2⟩
  | stopSearch =>
      have hf := handleStopSearch_fields s
      exact ⟨hf.2.2.2.1, fun hl => hf.2.2.2.2.1.trans hl⟩

theorem runTrace_stInv_queueInv (desiredWorkers : Nat) (p : String) :
    ∀ (tr : List SchedEvent) (s : SchedState),
      s.selectedPatternFile = some p → s.mainPatternLoaded = true →
      stInv s → queueInv s →
      stInv (runTrace desiredWorkers tr s) ∧
      queueInv (runTrace desiredWorkers tr s) ∧
      (runTrace desiredWorkers tr s).selectedPatternFile = some p ∧
      (runTrace desiredWorkers tr s).mainPatternLoaded = true := by
  intro tr
  induction tr with
  | nil => intro s h1 h2 h3 h4; exact ⟨h3, h4, h1, h2⟩
  | cons e rest ih =>
      intro s h1 h2 h3 h4
      have hpers := schedStep_sel_loaded desiredWorkers e s
      exact ih _ (hpers.1.trans h1) (hpers.2 h2)
        (schedStep_stInv desiredWorkers e s p h1 h2 h3)
        (schedStep_queueInv desiredWorkers e s h4)

/-- **C4**: within one session (a state satisfying the start-state
invariants, with a selected and loaded pattern), across an arbitrary event
trace: the self-test body has run at most once, any tick while running
leaves it having run exactly once with the completed flag set (whether or
not the self-test found a match — the flag is set regardless, so no later
iteration runs it again), and whenever a generated task's result is counted
the self-test has already executed exactly once. -/
theorem c4_selftest_exactly_once (desiredWorkers : Nat) (p : String)
    (s : SchedState) (tr : List SchedEvent) (o : Option Nat) (w : Nat)
    (m? : Option Nat)
    (hsel : s.selectedPatternFile = some p) (hld : s.mainPatternLoaded = true)
    (h1 : stInv s) (h2 : queueInv s) :
    stInv (runTrace desiredWorkers tr s) ∧
    queueInv (runTrace desiredWorkers tr s) ∧
    (runTrace desiredWorkers tr s).selfTestExecutions ≤ 1 ∧
    ((runTrace desiredWorkers tr s).isSearching = true →
      (schedStep desiredWorkers (SchedEvent.tick o)
          (runTrace desiredWorkers tr s)).selfTestExecutions = 1 ∧
      (schedStep desiredWorkers (SchedEvent.tick o)
          (runTrace desiredWorkers tr s)).testRunCompleted = true) ∧
    (0 < (runTrace desiredWorkers tr s).inFlight →
      (schedStep desiredWorkers (SchedEvent.result w m?)
          (runTrace desiredWorkers tr s)).searchedCount
        = (runTrace desiredWorkers tr s).searchedCount + 1 ∧
      (runTrace desiredWorkers tr s).testRunCompleted = true ∧
      (runTrace desiredWorkers tr s).selfTestExecutions = 1) := by
  obtain ⟨hst, hq, hselT, hldT⟩ :=
    runTrace_stInv_queueInv desiredWorkers p tr s hsel hld h1 h2
  refine ⟨hst, hq, hst.1, ?_, ?_⟩
  · intro hrun
    exact ⟨schedulerTick_exec_once desiredWorkers o _ p hselT hldT hrun hst,
      schedulerTick_completes desiredWorkers o _ hrun⟩
  · intro hfl
    have hdone : (runTrace desiredWorkers tr s).testRunCompleted = true :=
      hq (Or.inr hfl)
    exact ⟨(handleResultMsg_fields _ w m?).1, hdone, hst.2.mp hdone⟩

/-- A concrete scheduler state used by the witnesses: a running session with
two workers, a selected and loaded pattern, the self-test not yet run. -/
def schedSt1 : SchedState :=
  { isSearching := true, searchedCount := 0, foundMatches := [7],
    testRunCompleted := false, selectedPatternFile := some "p.png",
    mainPatternLoaded := true, workerPool := [0, 1], idleWorkers := [],
    taskQueue := 0, inFlight := 0, workersSuccessfullyInitialized := 0,
    nextWorkerId := 2, shutdownSent := [], terminated := [],
    selfTestExecutions := 0 }

/-- `schedSt1` with the running flag cleared (a stopped session). -/
def schedSt0 : SchedState := { schedSt1 with isSearching := false }

/-- Witness for C3 at the two-worker state. -/
theorem c3_witness :
    schedSt1.workerPool.length ≤ 2 ∧
    ((runTrace 2 [SchedEvent.tick none] schedSt1).workerPool.length ≤ 2 ∧
     (2 ≤ schedSt1.workerPool.length →
       createAndAddWorker 2 schedSt1 = schedSt1) ∧
     (schedSt1.isSearching = true →
       schedSt1.selectedPatternFile = some "p.png" → 1 ≠ 0 →
       schedSt1.workerPool.length = 2 →
       (schedStep 2 (SchedEvent.workerExit 0 1) schedSt1).workerPool.length
         = 2)) :=
  ⟨by decide,
    c3_pool_size_invariant 2 schedSt1 [SchedEvent.tick none] 0 1 "p.png"
      (by decide)⟩

/-- Witness for C4 at the two-worker state, one tick. -/
theorem c4_witness :
    schedSt1.selectedPatternFile = some "p.png" ∧
    schedSt1.mainPatternLoaded = true ∧ stInv schedSt1 ∧ queueInv schedSt1 ∧
    (stInv (runTrace 2 [SchedEvent.tick none] schedSt1) ∧
     queueInv (runTrace 2 [SchedEvent.tick none] schedSt1) ∧
     (runTrace 2 [SchedEvent.tick none] schedSt1).selfTestExecutions ≤ 1 ∧
     ((runTrace 2 [SchedEvent.tick none] schedSt1).isSearching = true →
       (schedStep 2 (SchedEvent.tick none)
           (runTrace 2 [SchedEvent.tick none] schedSt1)).selfTestExecutions
         = 1 ∧
       (schedStep 2 (SchedEvent.tick none)
           (runTrace 2 [SchedEvent.tick none] schedSt1)).testRunCompleted
         = true) ∧
     (0 < (runTrace 2 [SchedEvent.tick none] schedSt1).inFlight →
       (schedStep 2 (SchedEvent.result 0 none)
           (runTrace 2 [SchedEvent.tick none] schedSt1)).searchedCount
         = (runTrace 2 [SchedEvent.tick none] schedSt1).searchedCount + 1 ∧
       (runTrace 2 [SchedEvent.tick none] schedSt1).testRunCompleted = true ∧
       (runTrace 2 [SchedEvent.tick none] schedSt1).selfTestExecutions = 1)) :=
  ⟨rfl, rfl, ⟨by decide, by decide⟩, fun hq => absurd hq (by decide),
    c4_selftest_exactly_once 2 "p.png" schedSt1 [SchedEvent.tick none] none
      0 none rfl rfl ⟨by decide, by decide⟩ (fun hq => absurd hq (by decide))⟩

/-- Witness for C5 at the two-worker running state. -/
theorem c5_witness :
    schedSt1.isSearching = true ∧
    ((handleStopSearch schedSt1).isSearching = false ∧
     (handleStopSearch schedSt1).taskQueue = 0 ∧
     (handleStopSearch schedSt1).idleWorkers = [] ∧
     (∀ w ∈ schedSt1.workerPool, w ∈ (handleStopSearch schedSt1).shutdownSent) ∧
     (∀ t : SchedState, t.isSearching = false → ∀ w code,
       (schedStep 2 (SchedEvent.workerExit w code) t).workerPool
         = t.workerPool.erase w) ∧
     (runTrace 2
         ([((0 : Nat), (1 : Nat))].map fun pr => SchedEvent.workerExit pr.1 pr.2)
         (handleStopSearch schedSt1)).workerPool.length
       ≤ (handleStopSearch schedSt1).workerPool.length) :=
  ⟨rfl, c5_stopSession_drains_and_never_replaces 2 schedSt1 [(0, 1)] rfl⟩

/-- Witness for C6: worker 0 errors out of a full two-worker pool. -/
theorem c6_witness :
    schedSt1.isSearching = true ∧
    schedSt1.selectedPatternFile = some "p.png" ∧
    schedSt1.workerPool.length = 2 ∧ 0 ∈ schedSt1.workerPool ∧
    schedSt1.workerPool.Nodup ∧ schedSt1.idleWorkers.Nodup ∧
    (let s1 := schedStep 2 (SchedEvent.workerError 0) schedSt1
     let s2 := schedStep 2 (SchedEvent.workerExit 0 1) s1
     0 ∉ s1.workerPool ∧ 0 ∉ s1.idleWorkers ∧ 0 ∈ s1.terminated ∧
     s1.workerPool.length = 2 - 1 ∧
     s2.workerPool = s1.workerPool ++ [s1.nextWorkerId] ∧
     s2.workerPool.length = 2) :=
  ⟨rfl, rfl, by decide, by decide, by decide, by decide,
    c6_error_removes_terminates_replaces 2 "p.png" schedSt1 0 rfl rfl
      (by decide) (by decide) (by decide) (by decide)⟩

/-- Witness for C8: a stopped state started once, then a stop/start trace. -/
theorem c8_witness :
    schedSt0.isSearching = false ∧
    schedSt0.selectedPatternFile = some "p.png" ∧
    (schedSt0.mainPatternLoaded = true ∨ true = true) ∧
    ((schedStep 2 (SchedEvent.startSearch true) schedSt0).searchedCount = 0 ∧
     (schedStep 2 (SchedEvent.startSearch true) schedSt0).testRunCompleted
       = false ∧
     (schedStep 2 (SchedEvent.startSearch true) schedSt0).foundMatches
       = schedSt0.foundMatches ∧
     (runTrace 2 [SchedEvent.startSearch true, SchedEvent.stopSearch]
         schedSt0).foundMatches = schedSt0.foundMatches) :=
  ⟨rfl, rfl, Or.inl rfl,
    c8_start_resets_counters_keeps_history 2 "p.png" schedSt0 true
      [SchedEvent.startSearch true, SchedEvent.stopSearch] rfl rfl (Or.inl rfl)
      (by
        intro e he
        simp only [List.mem_cons, List.not_mem_nil, or_false] at he
        rcases he with rfl | rfl
        · exact Or.inl ⟨true, rfl⟩
        · exact Or.inr rfl)⟩

/-!  Worker embedding (`qr_worker.js`). -/

/-- JavaScript truthiness of an optional string (`null`, `undefined` and
`""` are falsy). -/
def jsTruthyStr : Option String → Bool
  | none => false
  | some s => !(s == "")

/-- `patternFile || "Unknown"`. -/
def jsStrOr (s? : Option String) (dflt : String) : String :=
  if jsTruthyStr s? = true then s?.getD "" else dflt

/-- Tasks a worker receives over `parentPort`. -/
inductive WTask where
  | shutdown
  | processURL (url : String)

/-- Messages a worker posts to the main thread. -/
inductive WMsg where
  | ready
  | errMsg (message : String)
  | result (url : String) (match? : Option MatchLoc) (error : Option String)
deriving DecidableEq

/-- The worker's mutable state: its configuration, its own
`PatternMatcherService`, the load flag, and instrumentation recording
whether it exited (`process.exit`) and how many times it invoked the
matcher. -/
structure WorkerState where
  patternFile : Option String
  svc : MatcherState
  isPatternSuccessfullyLoaded : Bool
  exited : Bool
  exitCode : Option Nat
  searchesAttempted : Nat

/-- The per-task error used when the pattern is not loaded:
`Pattern '<file>' not loaded in worker.` -/
def notLoadedError (patternFile : Option String) : String :=
  "Pattern \x27" ++ jsStrOr patternFile "Unknown" ++
    "\x27 not loaded in worker."

/-- `initialize()`: guards against a missing pattern file, loads the
worker's own pattern copy (`readResult` is the decoded read outcome), and
posts `ready` on success or an error message on failure.  The worker never
exits here. -/
def initializeWorker (w : WorkerState) (readResult : Option Image) :
    WorkerState × List WMsg :=
  if jsTruthyStr w.patternFile = false then
    (w, [WMsg.errMsg "Worker started without a patternFile."])
  else
    if (loadPattern w.svc (w.patternFile.getD "") readResult).2 = false then
      ({ w with
          svc := (loadPattern w.svc (w.patternFile.getD "") readResult).1,
          isPatternSuccessfullyLoaded := false },
       [WMsg.errMsg ("Worker failed to load pattern: " ++ w.patternFile.getD "")])
    else
      ({ w with
          svc := (loadPattern w.svc (w.patternFile.getD "") readResult).1,
          isPatternSuccessfullyLoaded := true },
       [WMsg.ready])

/-- The worker's `parentPort` message handler.  `qrGen` is the outcome of
the external QR generation (`none` models a generation failure). -/
def workerHandleTask (w : WorkerState) (task : WTask) (qrGen : Option Image) :
    WorkerState × List WMsg :=
  match task with
  | WTask.shutdown => ({ w with exited := true, exitCode := some 0 }, [])
  | WTask.processURL url =>
      if w.isPatternSuccessfullyLoaded = false then
        if url == "" then (w, [])
        else (w, [WMsg.result url none (some (notLoadedError w.patternFile))])
      else
        match qrGen with
        | some qrImg =>
            ({ w with searchesAttempted := w.searchesAttempted + 1 },
             [WMsg.result url (findPatternInQr w.svc (some qrImg)) none])
        | none =>
            (w,
             [WMsg.result url none (some "Failed to generate QR Jimp image.")])

/-- **C9**: a worker whose pattern load failed posts an initialization
error message and does not exit; every subsequent `processURL` task is
answered with a result carrying no match and the same fixed
pattern-not-loaded error, with no matcher invocation and no state change
(in particular the worker still does not terminate itself). -/
theorem c9_failed_load_worker_rejects_tasks (pf url : String)
    (w0 : WorkerState) (readResult qrGen : Option Image)
    (hpf : w0.patternFile = some pf) (hpf2 : pf ≠ "") (hurl : url ≠ "")
    (hfail : (loadPattern w0.svc pf readResult).2 = false) :
    (initializeWorker w0 readResult).2
      = [WMsg.errMsg ("Worker failed to load pattern: " ++ pf)] ∧
    (initializeWorker w0 readResult).1.isPatternSuccessfullyLoaded = false ∧
    (initializeWorker w0 readResult).1.exited = w0.exited ∧
    workerHandleTask (initializeWorker w0 readResult).1
        (WTask.processURL url) qrGen
      = ((initializeWorker w0 readResult).1,
         [WMsg.result url none
           (some (notLoadedError (initializeWorker w0 readResult).1.patternFile))]) ∧
    notLoadedError (initializeWorker w0 readResult).1.patternFile
      = "Pattern \x27" ++ pf ++ "\x27 not loaded in worker." := by
  have htr : jsTruthyStr w0.patternFile = true := by
    rw [hpf]
    simp [jsTruthyStr, hpf2]
  have hini : initializeWorker w0 readResult =
      ({ w0 with svc := (loadPattern w0.svc pf readResult).1,
                 isPatternSuccessfullyLoaded := false },
       [WMsg.errMsg ("Worker failed to load pattern: " ++ pf)]) := by
    unfold initializeWorker
    rw [htr, if_neg (by simp), hpf]
    simp only [Option.getD_some]
    rw [if_pos hfail]
  rw [hini]
  refine ⟨rfl, rfl, rfl, ?_, ?_⟩
  · unfold workerHandleTask
    dsimp only
    rw [if_pos rfl, if_neg (by simp [hurl])]
  · show notLoadedError w0.patternFile = _
    rw [hpf]
    unfold notLoadedError jsStrOr
    rw [if_pos (by simp [jsTruthyStr, hpf2])]
    simp only [Option.getD_some]

/-- The initial state of a worker spawned with pattern file `p.png`. -/
def worker0 : WorkerState :=
  { patternFile := some "p.png", svc := svc0,
    isPatternSuccessfullyLoaded := false, exited := false, exitCode := none,
    searchesAttempted := 0 }

/-- Witness for C9: the load fails on the gray-pixel pattern source. -/
theorem c9_witness :
    worker0.patternFile = some "p.png" ∧ "p.png" ≠ "" ∧ "u" ≠ "" ∧
    (loadPattern worker0.svc "p.png" (some badImg)).2 = false ∧
    ((initializeWorker worker0 (some badImg)).2
       = [WMsg.errMsg ("Worker failed to load pattern: " ++ "p.png")] ∧
     (initializeWorker worker0 (some badImg)).1.isPatternSuccessfullyLoaded
       = false ∧
     (initializeWorker worker0 (some badImg)).1.exited = worker0.exited ∧
     workerHandleTask (initializeWorker worker0 (some badImg)).1
         (WTask.processURL "u") none
       = ((initializeWorker worker0 (some badImg)).1,
          [WMsg.result "u" none
            (some (notLoadedError
              (initializeWorker worker0 (some badImg)).1.patternFile))]) ∧
     notLoadedError (initializeWorker worker0 (some badImg)).1.patternFile
       = "Pattern \x27" ++ "p.png" ++ "\x27 not loaded in worker.") :=
  ⟨rfl, by decide, by decide, by decide,
    c9_failed_load_worker_rejects_tasks "p.png" "u" worker0 (some badImg)
      none rfl (by decide) (by decide) (by decide)⟩

end Kyoowar
